import Mathlib

/-!
Verification of the jasper process-supervision core: the `Local` executor
and the `blockingProcess` reactor/handle. The executor implementation
(`internal/executor/local.go`) and the reactor implementation
(`blocking_process.go`) are not among the repository fragments; they are
modelled here from the specification (sections 3 to 5 and 8), with channel
nondeterminism made explicit as event parameters. The test files
(`blocking_process_test.go` and the executor test suite) fix the observable
behaviour the model must reproduce.
-/

namespace Jasper

/-- Unix signal number for SIGKILL. -/
def SIGKILL : Int := 9

/-- Unix signal number for SIGTERM. -/
def SIGTERM : Int := 15

/-- Modelled from the spec: the OS-reported termination cause of a child
process observed by `Wait` (missing `internal/executor/local.go`). A child
either exits with a code or is terminated by a signal. -/
inductive Outcome where
  | exited (code : Nat)
  | signalled (sig : Int)
deriving DecidableEq, Repr

/-- Modelled from the spec: the state of a `Local` executor (missing
`internal/executor/local.go`, section 4.1): argv, environment, working
directory, lifecycle flags, and post-exit introspection fields. -/
structure Local where
  args : List String
  env : List String
  dir : String
  started : Bool
  exited : Bool
  pid : Int
  exitCode : Int
  success : Bool
  sig : Int
  signaled : Bool
deriving DecidableEq, Repr

/-- Modelled from the spec: `NewLocal(ctx, argv)` constructs a Local executor;
never returns an error. Before `Start`: `PID=-1`, `ExitCode=-1`,
`Success=false`, `SignalInfo=(-1,false)`. -/
def NewLocal (args : List String) : Local :=
  { args := args, env := [], dir := "", started := false, exited := false
  , pid := -1, exitCode := -1, success := false, sig := -1, signaled := false }

/-- `PID` accessor. -/
def Local.PID (e : Local) : Int := e.pid

/-- `ExitCode` accessor. -/
def Local.ExitCode (e : Local) : Int := e.exitCode

/-- `Success` accessor. -/
def Local.Success (e : Local) : Bool := e.success

/-- `SignalInfo` accessor: `(signal, was_signalled)`. -/
def Local.SignalInfo (e : Local) : Int × Bool := (e.sig, e.signaled)

/-- Modelled from the spec: `Start` launches the child (section 4.1). Fails
when the bound context is already cancelled, when the binary cannot be
located or executed, or when `Start` has already been called. On success the
PID becomes the OS-assigned pid. `ctxCancelled` is whether the bound context
is already cancelled and `binOk` whether the binary can be executed. -/
def Local.start (e : Local) (ctxCancelled : Bool) (binOk : Bool) (osPid : Int) :
    Except String Local :=
  if ctxCancelled then .error "context canceled before start"
  else if !binOk then .error "executable file not found"
  else if e.started then .error "process already started"
  else .ok { e with started := true, pid := osPid }

/-- Modelled from the spec: `Wait` blocks until the child terminates or the
bound context cancels (section 4.1). Errors when the process is unstarted,
when the child exited non-zero, or when the bound context cancelled before
natural exit. Synthetic signal-attribution rule: when the bound context was
cancelled before natural exit (`ctxCancelledBeforeExit`), `SignalInfo`
reports `(SIGKILL, true)` and `ExitCode` is `-1`, regardless of the
OS-reported cause `o`. -/
def Local.wait (e : Local) (ctxCancelledBeforeExit : Bool) (o : Outcome) :
    Local × Option String :=
  if !e.started then (e, some "cannot wait on an unstarted process")
  else if ctxCancelledBeforeExit then
    ({ e with exited := true, exitCode := -1, success := false
            , sig := SIGKILL, signaled := true },
     some "context canceled before process exited")
  else
    match o with
    | .exited 0 =>
        ({ e with exited := true, exitCode := 0, success := true }, none)
    | .exited (n + 1) =>
        ({ e with exited := true, exitCode := Int.ofNat (n + 1), success := false },
         some "exit status nonzero")
    | .signalled s =>
        ({ e with exited := true, exitCode := -1, success := false
                , sig := s, signaled := true },
         some "signal terminated process")

/-- Modelled from the spec: `Signal(sig)` delivers `sig` to the child; fails
when the process is unstarted or already terminated (section 4.1), leaving
the executor state unchanged. Attribution of a terminating signal to
`SignalInfo` happens when `Wait` observes the `signalled` outcome. -/
def Local.signal (e : Local) (s : Int) : Local × Option String :=
  if !e.started then (e, some "cannot signal an unstarted process")
  else if e.exited then (e, some "cannot signal a process that has terminated")
  else (e, none)

/-- `ProcessInfo` snapshot record (section 3); field defaults are the Go zero
value, as produced for a caller whose context cancels before a reply. -/
structure ProcessInfo where
  ID : String
  Host : String
  PID : Int
  IsRunning : Bool
  Complete : Bool
  Successful : Bool
  Timeout : Bool
  ExitCode : Int
deriving DecidableEq, Repr

/-- The zero-valued `ProcessInfo` snapshot (Go's `ProcessInfo\x7b\x7d`). -/
def ProcessInfo.zero : ProcessInfo :=
  ⟨"", "", 0, false, false, false, false, 0⟩

/-- A registered trigger callback. Callback values are modelled as opaque
tags; a Go `nil` trigger is `Option.none` at the registration interface. -/
def ProcessTrigger := String
deriving instance DecidableEq for ProcessTrigger

/-- Modelled from the spec: the `blockingProcess` reactor entity (missing
`blocking_process.go`, section 3): id, the reactor-owned `ProcessInfo`, the
terminal error from `Wait`, and the ordered trigger list. The ops and
complete channels are modelled by the event parameters of each method and by
the `Complete` flag of `info`. -/
structure blockingProcess where
  id : String
  info : ProcessInfo
  err : Option String
  triggers : List ProcessTrigger
deriving DecidableEq

/-- Modelled from the spec: `newBlockingProcess` resolves options into an
executor and returns a handle whose snapshot carries the handle id. Only the
id-population aspect is needed here. -/
def newBlockingProcess (i : String) : blockingProcess :=
  { id := i, info := { ProcessInfo.zero with ID := i }, err := none, triggers := [] }

/-- The post-completion fast-path test: the published `Complete` flag. -/
def blockingProcess.hasCompleteInfo (p : blockingProcess) : Bool := p.info.Complete

/-- `ID()` returns the immutable handle id; never blocks. -/
def blockingProcess.ID (p : blockingProcess) : String := p.id

/-- `Complete(ctx)`: true iff the reactor has published completion. -/
def blockingProcess.Complete (p : blockingProcess) : Bool := p.hasCompleteInfo

/-- How a handle method's channel `select` resolved: the reactor accepted the
operation and replied, or the caller's context fired first (`sent` records
whether the operation had already been placed on the ops channel when the
context fired). -/
inductive OpEvent where
  | accepted
  | ctxDone (sent : Bool)
deriving DecidableEq, Repr

/-- Modelled from the spec: `Info(ctx)` (section 4.3). Post-completion fast
path returns the final snapshot without touching the ops channel; otherwise
the reactor replies with the current snapshot, or caller cancellation yields
the zero-valued snapshot. The second component records whether an operation
was enqueued on the ops channel. -/
def blockingProcess.InfoOp (p : blockingProcess) (ev : OpEvent) :
    ProcessInfo × Bool :=
  if p.hasCompleteInfo then (p.info, false)
  else
    match ev with
    | .accepted => (p.info, true)
    | .ctxDone sent => (ProcessInfo.zero, sent)

/-- `Info(ctx)`: the snapshot component of `InfoOp`. -/
def blockingProcess.Info (p : blockingProcess) (ev : OpEvent) : ProcessInfo :=
  (p.InfoOp ev).1

/-- Modelled from the spec: `Running(ctx)` (section 4.3). Post-completion
fast path returns false without touching the ops channel; otherwise the
reactor's closure reports true iff the executor reference is non-nil and its
PID is positive; caller cancellation yields false. The second component
records whether an operation was enqueued. -/
def blockingProcess.RunningOp (p : blockingProcess) (ex : Option Local)
    (ev : OpEvent) : Bool × Bool :=
  if p.hasCompleteInfo then (false, false)
  else
    match ev with
    | .accepted =>
        match ex with
        | none => (false, true)
        | some e => (decide (0 < e.pid), true)
    | .ctxDone sent => (false, sent)

/-- `Running(ctx)`: the boolean component of `RunningOp`. -/
def blockingProcess.Running (p : blockingProcess) (ex : Option Local)
    (ev : OpEvent) : Bool :=
  (p.RunningOp ex ev).1

/-- Modelled from the spec: `Signal(ctx, sig)` (section 4.3). Post-completion
fast path returns an error immediately without touching the ops channel;
caller cancellation returns an error; the reactor's closure errors on a nil
executor and otherwise delegates to the executor's `Signal`. The second
component records whether an operation was enqueued. -/
def blockingProcess.SignalOp (p : blockingProcess) (s : Int) (ex : Option Local)
    (ev : OpEvent) : Option String × Bool :=
  if p.hasCompleteInfo then
    (some "cannot signal a process that has terminated", false)
  else
    match ev with
    | .ctxDone sent => (some "operation canceled", sent)
    | .accepted =>
        match ex with
        | none => (some "cannot signal nil process", true)
        | some e => ((e.signal s).2, true)

/-- `Signal(ctx, sig)`: the error component of `SignalOp`. -/
def blockingProcess.Signal (p : blockingProcess) (s : Int) (ex : Option Local)
    (ev : OpEvent) : Option String :=
  (p.SignalOp s ex ev).1

/-- Modelled from the spec: `RegisterTrigger(ctx, trig)` (section 4.3). Fails
when the trigger is nil, when the process is already complete, or when the
caller's context is cancelled; error cases leave the handle unchanged; on
success the trigger is appended. -/
def blockingProcess.RegisterTrigger (p : blockingProcess) (ctxCancelled : Bool)
    (trig : Option ProcessTrigger) : blockingProcess × Option String :=
  match trig with
  | none => (p, some "cannot register nil trigger")
  | some tr =>
      if p.hasCompleteInfo then
        (p, some "cannot register trigger after process exits")
      else if ctxCancelled then (p, some "context canceled")
      else ({ p with triggers := p.triggers ++ [tr] }, none)

/-- How `Wait(ctx)`'s `select` resolved: the reactor completed, or the
caller's context fired first. -/
inductive WaitEvent where
  | completed
  | ctxDone
deriving DecidableEq, Repr

/-- Modelled from the spec: handle `Wait(ctx)` (section 4.3). Blocks until
the reactor completes or the caller's context cancels; on completion returns
the final exit code and an error wrapping the reactor's terminal error
(`nil` terminal error yields `nil`); on caller cancellation returns the
context error to that caller only. -/
def blockingProcess.Wait (p : blockingProcess) (ev : WaitEvent) :
    Int × Option String :=
  match ev with
  | .completed =>
      (p.info.ExitCode,
       p.err.map (fun e => "error while waiting for process " ++ p.id ++ ": " ++ e))
  | .ctxDone => (-1, some "context canceled")

/-- C1: for every started Local executor, if the bound context is cancelled
before the child exits naturally then `Wait` returns an error, `SignalInfo`
reports `(SIGKILL, true)`, `Success` is false and `ExitCode` is `-1`,
regardless of the termination cause `o` the OS actually reported. -/
theorem wait_ctx_cancel_sigkill (e : Local) (o : Outcome) (h : e.started = true) :
    ((e.wait true o).2).isSome = true ∧
    (e.wait true o).1.SignalInfo = (SIGKILL, true) ∧
    (e.wait true o).1.Success = false ∧
    (e.wait true o).1.ExitCode = -1 := by
  simp [Local.wait, h, Local.SignalInfo, Local.Success, Local.ExitCode]

/-- Witness for C1: a started executor for `sleep 10` whose bound context is
cancelled while the OS reports a natural zero exit is still attributed
`(SIGKILL, true)` with exit code `-1`. -/
theorem wait_ctx_cancel_sigkill_witness :
    ((({ NewLocal ["sleep", "10"] with started := true, pid := 42 } : Local).wait
        true (Outcome.exited 0)).2).isSome = true ∧
    (({ NewLocal ["sleep", "10"] with started := true, pid := 42 } : Local).wait
        true (Outcome.exited 0)).1.SignalInfo = (SIGKILL, true) ∧
    (({ NewLocal ["sleep", "10"] with started := true, pid := 42 } : Local).wait
        true (Outcome.exited 0)).1.Success = false ∧
    (({ NewLocal ["sleep", "10"] with started := true, pid := 42 } : Local).wait
        true (Outcome.exited 0)).1.ExitCode = -1 :=
  wait_ctx_cancel_sigkill _ _ rfl

/-- C5: for every started Local executor whose `Wait` returned without a
context error, `ExitCode = 0` iff `Success`, and `Success` holds iff `Wait`
returned no error. -/
theorem exit_code_zero_iff_success (e : Local) (o : Outcome) (h : e.started = true) :
    ((e.wait false o).1.ExitCode = 0 ↔ (e.wait false o).1.Success = true) ∧
    ((e.wait false o).2 = none ↔ (e.wait false o).1.Success = true) := by
  cases o with
  | exited code =>
      cases code with
      | zero =>
          simp [Local.wait, h, Local.ExitCode, Local.Success]
      | succ n =>
          simp [Local.wait, h, Local.ExitCode, Local.Success]
          omega
  | signalled s =>
      simp [Local.wait, h, Local.ExitCode, Local.Success]

/-- Witness for C5: `argv = ["true"]`, natural exit 0: exit code 0 and
success agree, and the no-error claim agrees with success. -/
theorem exit_code_zero_iff_success_witness :
    ((({ NewLocal ["true"] with started := true, pid := 7 } : Local).wait
        false (Outcome.exited 0)).1.ExitCode = 0 ↔
      (({ NewLocal ["true"] with started := true, pid := 7 } : Local).wait
        false (Outcome.exited 0)).1.Success = true) ∧
    ((({ NewLocal ["true"] with started := true, pid := 7 } : Local).wait
        false (Outcome.exited 0)).2 = none ↔
      (({ NewLocal ["true"] with started := true, pid := 7 } : Local).wait
        false (Outcome.exited 0)).1.Success = true) :=
  exit_code_zero_iff_success _ _ rfl

/-- C8: for every started Local executor on which `Wait` has returned, a
subsequent `Signal` returns an error and leaves the executor (hence
`SignalInfo`) unchanged; for a natural exit the signal info still equals its
pre-`Wait` value afterwards. -/
theorem signal_after_wait (e : Local) (o : Outcome) (s : Int) (h : e.started = true) :
    ((((e.wait false o).1).signal s).2).isSome = true ∧
    (((e.wait false o).1).signal s).1 = (e.wait false o).1 ∧
    ((((e.wait false o).1).signal s).1).SignalInfo = ((e.wait false o).1).SignalInfo ∧
    (∀ n, o = Outcome.exited n →
      ((((e.wait false o).1).signal s).1).SignalInfo = e.SignalInfo) := by
  cases o with
  | exited code =>
      cases code with
      | zero =>
          simp [Local.wait, h, Local.signal, Local.SignalInfo]
      | succ n =>
          simp [Local.wait, h, Local.signal, Local.SignalInfo]
  | signalled s' =>
      simp [Local.wait, h, Local.signal, Local.SignalInfo]

/-- Witness for C8: after a natural exit of `true`, a failed `Signal(SIGKILL)`
leaves `SignalInfo` at `(-1, false)`. -/
theorem signal_after_wait_witness :
    (((((({ NewLocal ["true"] with started := true, pid := 7 } : Local).wait
        false (Outcome.exited 0)).1).signal SIGKILL).2).isSome = true) ∧
    ((((({ NewLocal ["true"] with started := true, pid := 7 } : Local).wait
        false (Outcome.exited 0)).1).signal SIGKILL).1).SignalInfo = (-1, false) :=
  ⟨(signal_after_wait _ (Outcome.exited 0) SIGKILL rfl).1,
   ((signal_after_wait ({ NewLocal ["true"] with started := true, pid := 7 } : Local)
      (Outcome.exited 0) SIGKILL rfl).2.2.2 0 rfl)⟩

/-- C10: for every executor satisfying the pre-`Start` invariants, after a
successful `Start` with a positive OS pid and before `Wait`, `PID` is
positive while `Success` is still false and `ExitCode` is still `-1`. -/
theorem start_runtime_fields (e : Local) (osPid : Int) (e' : Local)
    (hs : e.started = false) (hsc : e.success = false) (hec : e.exitCode = -1)
    (hp : 0 < osPid) (h : e.start false true osPid = .ok e') :
    0 < e'.PID ∧ e'.Success = false ∧ e'.ExitCode = -1 := by
  simp [Local.start, hs] at h
  subst h
  simp [Local.PID, Local.Success, Local.ExitCode, hsc, hec, hp]

/-- Witness for C10: starting `NewLocal ["sleep", "1"]` with OS pid 42 yields
a positive PID with `Success = false` and `ExitCode = -1`. -/
theorem start_runtime_fields_witness :
    0 < ({ NewLocal ["sleep", "1"] with started := true, pid := 42 } : Local).PID ∧
    ({ NewLocal ["sleep", "1"] with started := true, pid := 42 } : Local).Success = false ∧
    ({ NewLocal ["sleep", "1"] with started := true, pid := 42 } : Local).ExitCode = -1 :=
  start_runtime_fields (NewLocal ["sleep", "1"]) 42 _ rfl rfl rfl (by decide) rfl

/-- Handle fixture: a reactor that completed with a terminal error. -/
def procFailed : blockingProcess :=
  { id := "foo"
  , info := { ProcessInfo.zero with ID := "foo", Complete := true }
  , err := some "signal: killed"
  , triggers := [] }

/-- Handle fixture: a reactor that completed successfully. -/
def procOk : blockingProcess :=
  { id := "foo"
  , info := { ProcessInfo.zero with ID := "foo", Complete := true, Successful := true }
  , err := none
  , triggers := [] }

/-- C2: handle `Wait` value contract: on reactor completion the error is nil
iff the terminal error is nil, a non-nil terminal error is returned wrapped,
and caller-context cancellation yields the context error. -/
theorem wait_handle_contract (p : blockingProcess) :
    ((p.Wait .completed).2 = none ↔ p.err = none) ∧
    (∀ e, p.err = some e →
      (p.Wait .completed).2 =
        some ("error while waiting for process " ++ p.id ++ ": " ++ e)) ∧
    (p.Wait .ctxDone).2 = some "context canceled" := by
  refine ⟨?_, ?_, rfl⟩
  · cases herr : p.err <;> simp [blockingProcess.Wait, herr]
  · intro e herr
    simp [blockingProcess.Wait, herr]

/-- Witness for C2: a failed command's terminal error is wrapped into the
`Wait` error, and a successful command's `Wait` error is nil. -/
theorem wait_handle_contract_witness :
    (procFailed.Wait .completed).2 =
      some ("error while waiting for process foo: signal: killed") ∧
    (procOk.Wait .completed).2 = none ∧
    (procFailed.Wait .ctxDone).2 = some "context canceled" :=
  ⟨by
      have h := (wait_handle_contract procFailed).2.1 "signal: killed" rfl
      simpa using h,
   ((wait_handle_contract procOk).1).mpr rfl,
   (wait_handle_contract procFailed).2.2⟩

/-- C3: for a cancelled caller context, `Info` returns the zero-valued
snapshot (hence `Complete = false`) and `Running` returns false, unless the
reactor has already completed, in which case `Info` returns the final
snapshot and `Running` is still false. -/
theorem cancelled_ctx_info_running (p : blockingProcess) (sent : Bool)
    (ex : Option Local) :
    (p.info.Complete = false →
      p.Info (.ctxDone sent) = ProcessInfo.zero ∧
      (p.Info (.ctxDone sent)).Complete = false ∧
      p.Running ex (.ctxDone sent) = false) ∧
    (p.info.Complete = true →
      p.Info (.ctxDone sent) = p.info ∧
      p.Running ex (.ctxDone sent) = false) := by
  constructor
  · intro hc
    refine ⟨?_, ?_, ?_⟩ <;>
      simp [blockingProcess.Info, blockingProcess.InfoOp, blockingProcess.Running,
            blockingProcess.RunningOp, blockingProcess.hasCompleteInfo, hc,
            ProcessInfo.zero]
  · intro hc
    constructor <;>
      simp [blockingProcess.Info, blockingProcess.InfoOp, blockingProcess.Running,
            blockingProcess.RunningOp, blockingProcess.hasCompleteInfo, hc]

/-- Witness for C3: on a fresh handle with a cancelled context, `Info` is the
zero snapshot and `Running` is false; on a completed handle, `Info` is the
final snapshot. -/
theorem cancelled_ctx_info_running_witness :
    ((newBlockingProcess "abc").Info (.ctxDone false) = ProcessInfo.zero ∧
      ((newBlockingProcess "abc").Info (.ctxDone false)).Complete = false ∧
      (newBlockingProcess "abc").Running none (.ctxDone false) = false) ∧
    (procOk.Info (.ctxDone false) = procOk.info) :=
  ⟨(cancelled_ctx_info_running (newBlockingProcess "abc") false none).1 rfl,
   ((cancelled_ctx_info_running procOk false none).2 rfl).1⟩

/-- C4: once completion has been published, `Info`, `Running` and `Signal`
take the fast path: no operation is enqueued on the ops channel under any
select event, and the results (final snapshot, false, an error) do not
depend on the caller's context or the executor reference. -/
theorem post_completion_fast_path (p : blockingProcess) (ev : OpEvent)
    (ex : Option Local) (s : Int) (h : p.info.Complete = true) :
    (p.InfoOp ev).2 = false ∧
    (p.RunningOp ex ev).2 = false ∧
    (p.SignalOp s ex ev).2 = false ∧
    (p.InfoOp ev).1 = p.info ∧
    (p.RunningOp ex ev).1 = false ∧
    ((p.SignalOp s ex ev).1).isSome = true := by
  refine ⟨?_, ?_, ?_, ?_, ?_, ?_⟩ <;>
    simp [blockingProcess.InfoOp, blockingProcess.RunningOp,
          blockingProcess.SignalOp, blockingProcess.hasCompleteInfo, h]

/-- Witness for C4: on a completed handle, no method enqueues an operation
and the fast-path results are returned, even under an `accepted` event. -/
theorem post_completion_fast_path_witness :
    (procOk.InfoOp .accepted).2 = false ∧
    (procOk.RunningOp none .accepted).2 = false ∧
    (procOk.SignalOp SIGTERM none .accepted).2 = false ∧
    (procOk.InfoOp .accepted).1 = procOk.info ∧
    (procOk.RunningOp none .accepted).1 = false ∧
    ((procOk.SignalOp SIGTERM none .accepted).1).isSome = true :=
  post_completion_fast_path procOk .accepted none SIGTERM rfl

/-- C6: `Signal` returns an error whenever the process is already complete
(by the fast path, without enqueuing an operation), whenever the reactor's
executor reference is nil, and whenever the caller's context is cancelled. -/
theorem signal_error_conditions (p : blockingProcess) (s : Int)
    (ex : Option Local) (ev : OpEvent) (sent : Bool) :
    (p.info.Complete = true →
      ((p.SignalOp s ex ev).1).isSome = true ∧ (p.SignalOp s ex ev).2 = false) ∧
    ((p.Signal s none .accepted).isSome = true) ∧
    ((p.Signal s ex (.ctxDone sent)).isSome = true) := by
  refine ⟨fun h => ⟨?_, ?_⟩, ?_, ?_⟩
  · simp [blockingProcess.SignalOp, blockingProcess.hasCompleteInfo, h]
  · simp [blockingProcess.SignalOp, blockingProcess.hasCompleteInfo, h]
  · by_cases h : p.info.Complete <;>
      simp [blockingProcess.Signal, blockingProcess.SignalOp,
            blockingProcess.hasCompleteInfo, h]
  · by_cases h : p.info.Complete <;>
      simp [blockingProcess.Signal, blockingProcess.SignalOp,
            blockingProcess.hasCompleteInfo, h]

/-- Witness for C6: a completed handle's `Signal` errors on the fast path
without enqueuing; a fresh handle's `Signal` errors on a nil executor and on
a cancelled context. -/
theorem signal_error_conditions_witness :
    (((procOk.SignalOp SIGTERM none .accepted).1).isSome = true ∧
      (procOk.SignalOp SIGTERM none .accepted).2 = false) ∧
    ((newBlockingProcess "abc").Signal SIGTERM none .accepted).isSome = true ∧
    ((newBlockingProcess "abc").Signal SIGTERM none (.ctxDone false)).isSome = true :=
  ⟨(signal_error_conditions procOk SIGTERM none .accepted false).1 rfl,
   (signal_error_conditions (newBlockingProcess "abc") SIGTERM none .accepted false).2.1,
   (signal_error_conditions (newBlockingProcess "abc") SIGTERM none .accepted false).2.2⟩

/-- C7: `RegisterTrigger` errors when the trigger is nil, the process is
complete, or the context is cancelled, leaving the handle (hence the trigger
list) unchanged; on success it appends the trigger, growing the list by
exactly one. -/
theorem register_trigger_contract (p : blockingProcess) (c : Bool)
    (trig : Option ProcessTrigger) :
    ((trig = none ∨ p.info.Complete = true ∨ c = true) →
      ((p.RegisterTrigger c trig).2).isSome = true ∧
      (p.RegisterTrigger c trig).1 = p) ∧
    (∀ tr, trig = some tr → p.info.Complete = false → c = false →
      (p.RegisterTrigger c trig).2 = none ∧
      (p.RegisterTrigger c trig).1.triggers = p.triggers ++ [tr] ∧
      (p.RegisterTrigger c trig).1.triggers.length = p.triggers.length + 1) := by
  constructor
  · rintro (hn | hc | hcx)
    · subst hn
      simp [blockingProcess.RegisterTrigger]
    · cases trig with
      | none => simp [blockingProcess.RegisterTrigger]
      | some tr =>
          simp [blockingProcess.RegisterTrigger, blockingProcess.hasCompleteInfo, hc]
    · cases trig with
      | none => simp [blockingProcess.RegisterTrigger]
      | some tr =>
          subst hcx
          by_cases hc : p.info.Complete <;>
            simp [blockingProcess.RegisterTrigger, blockingProcess.hasCompleteInfo, hc]
  · intro tr htr hc hcx
    subst htr
    subst hcx
    simp [blockingProcess.RegisterTrigger, blockingProcess.hasCompleteInfo, hc]

/-- Witness for C7: registering a nil trigger on a fresh handle errors and
leaves the list empty; registering a populated trigger succeeds and grows
the list to length one. -/
theorem register_trigger_contract_witness :
    (((newBlockingProcess "abc").RegisterTrigger false none).2).isSome = true ∧
    ((newBlockingProcess "abc").RegisterTrigger false none).1 = newBlockingProcess "abc" ∧
    ((newBlockingProcess "abc").RegisterTrigger false (some "cleanup")).2 = none ∧
    ((newBlockingProcess "abc").RegisterTrigger false
        (some "cleanup")).1.triggers.length =
      (newBlockingProcess "abc").triggers.length + 1 :=
  ⟨((register_trigger_contract (newBlockingProcess "abc") false none).1 (Or.inl rfl)).1,
   ((register_trigger_contract (newBlockingProcess "abc") false none).1 (Or.inl rfl)).2,
   ((register_trigger_contract (newBlockingProcess "abc") false
      (some "cleanup")).2 "cleanup" rfl rfl rfl).1,
   ((register_trigger_contract (newBlockingProcess "abc") false
      (some "cleanup")).2 "cleanup" rfl rfl rfl).2.2⟩

/-- C9: with a nil executor reference inside the reactor closure and a live
(non-cancelled) caller context, no handle operation misbehaves: `Info` still
returns a snapshot carrying the handle's id, `Running` returns false, and
`Signal` returns an error. -/
theorem nil_executor_safety (p : blockingProcess) (s : Int)
    (hid : p.info.ID = p.id) (hc : p.info.Complete = false) :
    (p.Info .accepted).ID = p.ID ∧
    p.Running none .accepted = false ∧
    ((p.Signal s none .accepted)).isSome = true := by
  refine ⟨?_, ?_, ?_⟩ <;>
    simp [blockingProcess.Info, blockingProcess.InfoOp, blockingProcess.Running,
          blockingProcess.RunningOp, blockingProcess.Signal, blockingProcess.SignalOp,
          blockingProcess.hasCompleteInfo, blockingProcess.ID, hc, hid]

/-- Witness for C9: on a freshly constructed handle given a nil executor,
`Info` reports the handle id, `Running` is false and `Signal` errors. -/
theorem nil_executor_safety_witness :
    ((newBlockingProcess "abc").Info .accepted).ID = (newBlockingProcess "abc").ID ∧
    (newBlockingProcess "abc").Running none .accepted = false ∧
    (((newBlockingProcess "abc").Signal SIGTERM none .accepted)).isSome = true :=
  nil_executor_safety (newBlockingProcess "abc") SIGTERM rfl rfl

end Jasper
